import Mathlib

/-!
Shallow embedding of scripts/fetch_spotify_data.py.

Python dictionaries coming from JSON are modelled as Lean structures.  Where
the source distinguishes a key that is absent from a key that is present with
a JSON null value (dict.get with a default only fires for absent keys), the
field is modelled as Option (Option _): none is an absent key, some none is an
explicit null, some (some v) is a real value.  Where the source treats absent
and null identically (plain dict.get), a single Option is used.

Network traffic is modelled by oracles packaged in a World structure, and the
run produces a trace of network events.  Timestamps are abstracted by a single
string parameter.  Exceptions (SystemExit, AttributeError, uncaught HTTP
errors) are modelled with an Except monad over the RunErr type.
-/

namespace FetchSpotify

/-- Python truthiness of a string-or-None value followed by a fallback, i.e.
the expression a or b where a is Optional[str]: None and the empty string are
falsy. -/
def pyOrStr (o : Option String) (dflt : String) : String :=
  match o with
  | none => dflt
  | some s => if s = "" then dflt else s

/-- Python truthiness of an Optional[str]: truthy iff present and non-empty. -/
def pyTruthyStr (o : Option String) : Bool :=
  match o with
  | none => false
  | some s => s ≠ ""

/-- Model of Python str.strip(): leading and trailing whitespace removed. -/
def pyStrip (s : String) : String :=
  String.mk (((s.toList.dropWhile Char.isWhitespace).reverse.dropWhile
    Char.isWhitespace).reverse)

/-- Model of Python str.lower() on the ASCII names this pipeline handles. -/
def pyLower (s : String) : String :=
  String.mk (s.toList.map Char.toLower)

/-- Python string comparison: lexicographic on code points. -/
def pyStrLe (a b : String) : Prop :=
  a.toList ≤ b.toList

instance : DecidableRel pyStrLe :=
  fun a b => (inferInstance : Decidable (a.toList ≤ b.toList))

instance : IsTotal String pyStrLe :=
  ⟨fun a b => le_total a.toList b.toList⟩

instance : IsTrans String pyStrLe :=
  ⟨fun _ _ _ h1 h2 => le_trans h1 h2⟩

/-- Adding an element to a Python set, modelled on lists: a no-op when the
element is already there. -/
def pySetAdd (l : List String) (x : String) : List String :=
  if x ∈ l then l else l ++ [x]

/-- Python dict lookup (d.get(k)) on an insertion-ordered association list. -/
def dictGet {V : Type} (d : List (String × V)) (k : String) : Option V :=
  match d.find? (fun p => p.1 = k) with
  | some p => some p.2
  | none => none

/-- Python dict assignment d[k] = v: overwrites in place, else appends. -/
def dictInsert {V : Type} (d : List (String × V)) (k : String) (v : V) :
    List (String × V) :=
  if d.any (fun p => p.1 = k) then
    d.map (fun p => if p.1 = k then (k, v) else p)
  else d ++ [(k, v)]

/-- Python sorted() on strings: a stable sort by code-point order. -/
def sortStr (l : List String) : List String :=
  List.insertionSort pyStrLe l

/-- Digits of a decimal string, as a number; none unless the string is a
non-empty run of digits. -/
def digitsToNat (cs : List Char) : Option Nat :=
  match cs with
  | [] => none
  | _ =>
    if cs.all Char.isDigit then
      some (cs.foldl (fun acc c => acc * 10 + (c.toNat - 48)) 0)
    else none

/-- Model of the Python builtin int(s) on strings: surrounding whitespace is
stripped, an optional sign is followed by a non-empty run of digits (digit
group underscores are not modelled; no input in this development uses them). -/
def pyInt (s : String) : Option Int :=
  match (pyStrip s).toList with
  | '+' :: ds => (digitsToNat ds).map Int.ofNat
  | '-' :: ds => (digitsToNat ds).map (fun n => -(n : Int))
  | ds => (digitsToNat ds).map Int.ofNat

/-- Leap-year rule of the proleptic Gregorian calendar used by datetime. -/
def isLeapYear (y : Nat) : Bool :=
  (y % 4 = 0 && y % 100 ≠ 0) || y % 400 = 0

/-- Days in a month, for date validation. -/
def daysInMonth (y m : Nat) : Nat :=
  if m = 2 then (if isLeapYear y then 29 else 28)
  else if m = 4 || m = 6 || m = 9 || m = 11 then 30
  else 31

/-- Model of datetime.fromisoformat(s).year on the 10-character slices the
source feeds it: accepts exactly the form YYYY-MM-DD with a valid calendar
date (year 1 to 9999), returning the year; anything else is a ValueError,
modelled as none. -/
def isoDateYear (s : String) : Option Int :=
  match s.toList with
  | [y1, y2, y3, y4, '-', m1, m2, '-', d1, d2] =>
    match digitsToNat [y1, y2, y3, y4], digitsToNat [m1, m2], digitsToNat [d1, d2] with
    | some y, some m, some d =>
      if 1 ≤ y && y ≤ 9999 && 1 ≤ m && m ≤ 12 && 1 ≤ d && d ≤ daysInMonth y m then
        some (Int.ofNat y)
      else none
    | _, _, _ => none
  | _ => none

/-- Album object: release_date distinguishes only absent-or-null from a
string, because the source reads it with a plain dict.get. -/
structure Album where
  release_date : Option String
deriving DecidableEq, Repr

/-- parse_release_year from the source: falsy (absent, null or empty) release
dates give None; otherwise the first 10 characters are tried as an ISO date,
falling back to the first 4 characters as an integer, falling back to None. -/
def parse_release_year (album : Option Album) : Option Int :=
  match album with
  | none => none
  | some a =>
    match a.release_date with
    | none => none
    | some rd =>
      if rd = "" then none
      else
        match isoDateYear (rd.take 10) with
        | some y => some y
        | none => pyInt (rd.take 4)

/-- Artist object inside a track: the source reads the name with
artist.get(name-key, Unknown), so none models an absent key (a JSON null name
would crash the join in the source and is not exercised by the spec). -/
structure ArtistObj where
  name : Option String
deriving DecidableEq, Repr

/-- Track object nested in a playlist item. -/
structure Track where
  id : Option String
  is_local : Option Bool
  name : Option String
  artists : List ArtistObj
  album : Option Album
deriving DecidableEq, Repr

/-- A playlist track item.  The track field is Option (Option Track): none is
an absent key (the source's dict.get default then yields an empty dict, which
behaves downstream exactly like a track that has no fields), some none is an
explicit JSON null, which the source's .get(track-key, default).get(...)
chain does NOT protect against. -/
structure TrackItem where
  track : Option (Option Track)
deriving DecidableEq, Repr

/-- One entry of the audio_features response array.  The five numeric fields
are carried opaquely as strings, since the source only copies them through
and never computes with them. -/
structure FeatureEntry where
  id : Option String
  danceability : Option String
  energy : Option String
  valence : Option String
  tempo : Option String
  acousticness : Option String
deriving DecidableEq, Repr

/-- The five copied-through audio feature fields of an output track. -/
structure FeaturesBlock where
  danceability : Option String
  energy : Option String
  valence : Option String
  tempo : Option String
  acousticness : Option String
deriving DecidableEq, Repr

/-- One row of artist metadata after loading. -/
structure ArtistMeta where
  artistCountry : String
  regionGroup : String
  diaspora : Bool
deriving DecidableEq, Repr

/-- Output record for one track. -/
structure TrackRec where
  id : String
  title : String
  artist : String
  artistCountry : String
  regionGroup : String
  diaspora : Bool
  releaseYear : Option Int
  features : Option FeaturesBlock
deriving DecidableEq, Repr

/-- Playlist owner object. -/
structure OwnerObj where
  display_name : Option String
  id : Option String
deriving DecidableEq, Repr

/-- Followers block of a playlist snapshot. -/
structure FollowersObj where
  total : Option Int
deriving DecidableEq, Repr

/-- The tracks block of a snapshot: first page of items and the next cursor. -/
structure TracksBlock where
  next : Option String
  items : List TrackItem
deriving DecidableEq, Repr

/-- A playlist snapshot.  name, owner, followers and tracks are read with
snapshot.get(key, default) patterns whose defaults only fire for absent keys,
so they are Option (Option _); description is read with a plain get. -/
structure Snapshot where
  name : Option (Option String)
  description : Option String
  owner : Option (Option OwnerObj)
  followers : Option (Option FollowersObj)
  tracks : Option (Option TracksBlock)
deriving DecidableEq, Repr

/-- One page of the paginated tracks feed. -/
structure Page where
  next : Option String
  items : List TrackItem
deriving DecidableEq, Repr

/-- Output record for one playlist. -/
structure PlaylistRec where
  id : String
  name : Option String
  curatorType : Option String
  curator : String
  followerCount : Option Int
  launchYear : Option Int
  description : Option String
  tracks : List TrackRec
deriving DecidableEq, Repr

/-- A playlist configuration entry.  id is none when the id key is absent
(the condition the source checks with: id-key not in cfg); curatorType and
label distinguish absent keys from null values because the source reads them
with defaulted dict.get. -/
structure PlaylistCfg where
  id : Option String
  curatorType : Option (Option String)
  label : Option (Option String)
  market : Option String
deriving DecidableEq, Repr

/-- A non-2xx HTTP response surfaced as a requests.HTTPError: status code,
body text and reason phrase. -/
structure HttpFailure where
  status : Nat
  text : String
  reason : String
deriving DecidableEq, Repr

/-- The ways the modelled run can terminate abnormally: the SystemExit raised
for a config entry with no id key, an uncaught HTTPError, an AttributeError
from calling .get on None, and exhaustion of the pagination fuel bound (an
artifact that makes the cursor walk total; no claim exercises it). -/
inductive RunErr where
  | sysExitMissingId (slug : String)
  | httpError (f : HttpFailure)
  | attributeError
  | pagingFuelOut
deriving DecidableEq, Repr

/-- Loop body of the chunked generator: chunk is the partially filled batch. -/
def chunkedGo (size : Nat) : List String → List String → List (List String)
  | [], chunk => if chunk.isEmpty then [] else [chunk]
  | x :: xs, chunk =>
    let c := chunk ++ [x]
    if size ≤ c.length then c :: chunkedGo size xs [] else chunkedGo size xs c

/-- chunked from the source: splits a sequence into order-preserving batches,
every batch of exactly the requested size except a shorter final one. -/
def chunked (l : List String) (size : Nat) : List (List String) :=
  chunkedGo size l []

/-- Inserting one audio_features response array into the accumulated feature
map, as the source's inner loop does: null entries and entries whose id is
falsy are skipped, others are keyed by id, overwriting earlier entries. -/
def apply_feature_entries (features : List (String × FeatureEntry)) :
    List (Option FeatureEntry) → List (String × FeatureEntry)
  | [] => features
  | none :: rest => apply_feature_entries features rest
  | some e :: rest =>
    match e.id with
    | none => apply_feature_entries features rest
    | some i =>
      if i = "" then apply_feature_entries features rest
      else apply_feature_entries (dictInsert features i e) rest

/-- The per-batch loop of fetch_audio_features: each batch is requested (and
recorded), a failing batch is logged and skipped, a successful one has its
entries inserted into the map. -/
def fetchFeaturesGo (oracle : List String → Except HttpFailure (List (Option FeatureEntry))) :
    List (List String) → List (String × FeatureEntry) → List (List String) →
    List (String × FeatureEntry) × List (List String)
  | [], features, reqs => (features, reqs)
  | batch :: rest, features, reqs =>
    match oracle batch with
    | .error _ => fetchFeaturesGo oracle rest features (reqs ++ [batch])
    | .ok entries =>
      fetchFeaturesGo oracle rest (apply_feature_entries features entries) (reqs ++ [batch])

/-- fetch_audio_features from the source, over a batch oracle standing for
the audio-features endpoint.  Returns the id-to-feature map together with the
list of batch requests that were issued. -/
def fetch_audio_features (track_ids : List String)
    (oracle : List String → Except HttpFailure (List (Option FeatureEntry))) :
    List (String × FeatureEntry) × List (List String) :=
  fetchFeaturesGo oracle (chunked track_ids 100) [] []

/-- build_track_payload from the source.  The Python function mutates the
missing-artist set in place; here it returns the updated set alongside the
optional record. -/
def build_track_payload (track_item : TrackItem) (feature : Option FeatureEntry)
    (artist_metadata : List (String × ArtistMeta)) (missing_artists : List String) :
    Option TrackRec × List String :=
  match track_item.track with
  | none => (none, missing_artists)
  | some none => (none, missing_artists)
  | some (some track) =>
    if track.is_local.getD false then (none, missing_artists)
    else
      match track.id with
      | none => (none, missing_artists)
      | some track_id =>
        if track_id = "" then (none, missing_artists)
        else
          let artists := track.artists
          let joined := String.intercalate ", " (artists.map (fun a => a.name.getD "Unknown"))
          let artist_names := if joined = "" then "Unknown" else joined
          let primary_artist : Option String :=
            match artists with
            | [] => none
            | a :: _ => a.name
          let metadata : Option ArtistMeta :=
            match primary_artist with
            | none => none
            | some p => if p = "" then none else dictGet artist_metadata p
          let missing :=
            match primary_artist, metadata with
            | some p, none => if p = "" then missing_artists else pySetAdd missing_artists p
            | _, _ => missing_artists
          let features_block : Option FeaturesBlock :=
            match feature with
            | none => none
            | some f => some ⟨f.danceability, f.energy, f.valence, f.tempo, f.acousticness⟩
          (some {
            id := track_id,
            title := track.name.getD "Unknown",
            artist := artist_names,
            artistCountry := (metadata.map ArtistMeta.artistCountry).getD "Unknown",
            regionGroup := (metadata.map ArtistMeta.regionGroup).getD "Unknown",
            diaspora := (metadata.map ArtistMeta.diaspora).getD false,
            releaseYear := parse_release_year track.album,
            features := features_block }, missing)

/-- The tracks loop of normalize_playlist.  Before calling
build_track_payload the source evaluates item.get(track-key, default).get(id-key);
when the track field holds an explicit null the default does not apply and
the lookup raises AttributeError, which aborts the run. -/
def tracks_and_missing (artist_metadata : List (String × ArtistMeta))
    (audio_features : List (String × FeatureEntry)) :
    List TrackItem → List String → Except RunErr (List TrackRec × List String)
  | [], acc => .ok ([], acc)
  | item :: rest, acc =>
    match item.track with
    | some none => .error .attributeError
    | t =>
      let tid : Option String :=
        match t with
        | some (some tr) => tr.id
        | _ => none
      let feature :=
        match tid with
        | some s => dictGet audio_features s
        | none => none
      let pr := build_track_payload item feature artist_metadata acc
      match tracks_and_missing artist_metadata audio_features rest pr.2 with
      | .error e => .error e
      | .ok (lst, accF) =>
        .ok ((match pr.1 with
              | some p => p :: lst
              | none => lst), accF)

/-- The launch-year loop of normalize_playlist: scans the unfiltered item
list and stops at the first truthy (non-None, nonzero) parsed release year.
The same defaulted-get-then-get chain crashes on an explicit null track. -/
def launch_year_scan : List TrackItem → Except RunErr (Option Int)
  | [] => .ok none
  | item :: rest =>
    match item.track with
    | some none => .error .attributeError
    | none => launch_year_scan rest
    | some (some t) =>
      match parse_release_year t.album with
      | some y => if y = 0 then launch_year_scan rest else .ok (some y)
      | none => launch_year_scan rest

/-- normalize_playlist from the source, with the Python in-place mutation of
the missing-artist set returned explicitly.  Field accesses follow the
source's evaluation order: the tracks loop, then owner and followers, then
the launch-year loop, then the result dictionary. -/
def normalize_playlist (playlist_id : String) (config : PlaylistCfg)
    (snapshot : Snapshot) (track_items : List TrackItem)
    (audio_features : List (String × FeatureEntry))
    (artist_metadata : List (String × ArtistMeta)) (missing_artists : List String) :
    Except RunErr (PlaylistRec × List String) :=
  match tracks_and_missing artist_metadata audio_features track_items missing_artists with
  | .error e => .error e
  | .ok (tracks_payload, missing1) =>
    let ownerE : Except RunErr OwnerObj :=
      match snapshot.owner with
      | some none => .error .attributeError
      | none => .ok ⟨none, none⟩
      | some (some o) => .ok o
    match ownerE with
    | .error e => .error e
    | .ok owner =>
      let followersE : Except RunErr (Option Int) :=
        match snapshot.followers with
        | some none => .error .attributeError
        | none => .ok none
        | some (some fo) => .ok fo.total
      match followersE with
      | .error e => .error e
      | .ok followers =>
        match launch_year_scan track_items with
        | .error e => .error e
        | .ok launch_year =>
          .ok ({
            id := playlist_id,
            name :=
              match snapshot.name with
              | some v => v
              | none =>
                match config.label with
                | some v => v
                | none => some playlist_id,
            curatorType :=
              match config.curatorType with
              | some v => v
              | none => some "Unknown",
            curator := pyOrStr owner.display_name (pyOrStr owner.id "Unknown"),
            followerCount := followers,
            launchYear := launch_year,
            description := snapshot.description,
            tracks := tracks_payload }, missing1)

/-- The id collection of the orchestrator: ids of items whose track field is
a truthy (present, non-null) object, then only the truthy (non-empty) ids.
Note that the filter does not look at the local-file flag. -/
def collect_track_ids (track_items : List TrackItem) : List String :=
  let with_track := track_items.filter (fun item =>
    match item.track with
    | some (some _) => true
    | _ => false)
  let ids : List (Option String) := with_track.map (fun item =>
    match item.track with
    | some (some t) => t.id
    | _ => none)
  ids.filterMap (fun o =>
    match o with
    | some s => if s = "" then none else some s
    | none => none)

/-- The cursor walk of fetch_all_playlist_tracks, over a page oracle.  Fuel
makes the while loop total; every requested URL is recorded, including a
failing one.  A failing page request aborts with an uncaught HTTPError. -/
def walkPages (oracle : String → Except HttpFailure Page) :
    Nat → Option String → List TrackItem → List String →
    List String × Except RunErr (List TrackItem)
  | _, none, items, urls => (urls, .ok items)
  | 0, some _, _, urls => (urls, .error .pagingFuelOut)
  | fuel + 1, some u, items, urls =>
    match oracle u with
    | .error f => (urls ++ [u], .error (.httpError f))
    | .ok page => walkPages oracle fuel page.next (items ++ page.items) (urls ++ [u])

/-- fetch_all_playlist_tracks from the source: starts from the snapshot's
tracks block (an absent key defaults to an empty dict, an explicit null
crashes) and walks the pagination cursor. -/
def fetch_all_playlist_tracks (snapshot : Snapshot)
    (oracle : String → Except HttpFailure Page) (fuel : Nat) :
    List String × Except RunErr (List TrackItem) :=
  match snapshot.tracks with
  | some none => ([], .error .attributeError)
  | none => ([], .ok [])
  | some (some tb) => walkPages oracle fuel tb.next tb.items []

/-- One parsed CSV row as DictReader hands it to load_artist_metadata; none
stands for a missing or null cell. -/
structure CsvRow where
  artist : Option String
  artistCountry : Option String
  regionGroup : Option String
  diaspora : Option String
deriving DecidableEq, Repr

/-- One iteration of the row loop of load_artist_metadata: a row whose
artist cell is blank after stripping is skipped, any other row is keyed by
the stripped artist name, overwriting an earlier row with the same name. -/
def artist_row_step (m : List (String × ArtistMeta)) (row : CsvRow) :
    List (String × ArtistMeta) :=
  let artist_name := pyStrip (pyOrStr row.artist "")
  if artist_name = "" then m
  else
    let diaspora_value := pyLower (pyStrip (pyOrStr row.diaspora ""))
    dictInsert m artist_name {
      artistCountry := pyOrStr (some (pyStrip (pyOrStr row.artistCountry "Unknown"))) "Unknown",
      regionGroup := pyOrStr (some (pyStrip (pyOrStr row.regionGroup "Unknown"))) "Unknown",
      diaspora := diaspora_value = "true" || diaspora_value = "1" ||
        diaspora_value = "yes" || diaspora_value = "y" }

/-- The row loop of load_artist_metadata. -/
def metadata_of_rows (rows : List CsvRow) : List (String × ArtistMeta) :=
  rows.foldl artist_row_step []

/-- The built-in default artist table of the source. -/
def DEFAULT_ARTIST_METADATA : List (String × ArtistMeta) := [
  ("Rema", ⟨"Nigeria", "Nigeria", false⟩),
  ("Ayra Starr", ⟨"Nigeria", "Nigeria", false⟩),
  ("Burna Boy", ⟨"Nigeria", "Nigeria", false⟩),
  ("Wizkid", ⟨"Nigeria", "Nigeria", false⟩),
  ("Davido", ⟨"Nigeria", "Nigeria", false⟩),
  ("Tems", ⟨"Nigeria", "Nigeria", false⟩),
  ("Omah Lay", ⟨"Nigeria", "Nigeria", false⟩),
  ("CKay", ⟨"Nigeria", "Nigeria", false⟩),
  ("Lojay", ⟨"Nigeria", "Nigeria", false⟩),
  ("Fireboy DML", ⟨"Nigeria", "Nigeria", false⟩),
  ("Joeboy", ⟨"Nigeria", "Nigeria", false⟩),
  ("Oxlade", ⟨"Nigeria", "Nigeria", false⟩),
  ("Tyla", ⟨"South Africa", "Southern Africa", false⟩),
  ("Rotimi", ⟨"United States", "US Diaspora", true⟩),
  ("Chris Brown", ⟨"United States", "US Diaspora", true⟩),
  ("Don Toliver", ⟨"United States", "US Diaspora", true⟩),
  ("Ed Sheeran", ⟨"United Kingdom", "UK Collaborator", true⟩),
  ("Sarz", ⟨"Nigeria", "Nigeria", false⟩),
  ("Victony", ⟨"Nigeria", "Nigeria", false⟩),
  ("Mack H.D", ⟨"Canada", "Diaspora Collective", true⟩),
  ("Black Sherif", ⟨"Ghana", "Ghana", false⟩),
  ("King Promise", ⟨"Ghana", "Ghana", false⟩),
  ("Amaarae", ⟨"Ghana", "Ghana", true⟩),
  ("Stonebwoy", ⟨"Ghana", "Ghana", false⟩),
  ("Kuami Eugene", ⟨"Ghana", "Ghana", false⟩),
  ("Lasmid", ⟨"Ghana", "Ghana", false⟩),
  ("Shatta Wale", ⟨"Ghana", "Ghana", false⟩),
  ("Teni", ⟨"Nigeria", "Nigeria", false⟩),
  ("Tiwa Savage", ⟨"Nigeria", "Nigeria", false⟩),
  ("Kizz Daniel", ⟨"Nigeria", "Nigeria", false⟩),
  ("Mr Eazi", ⟨"Nigeria", "Nigeria", false⟩),
  ("Yemi Alade", ⟨"Nigeria", "Nigeria", false⟩)]

/-- load_artist_metadata from the source, for the case of an existing file
with all required columns (the absent-file branch returns the default table
directly, and missing columns raise SystemExit before this loop): the parsed
rows are folded into a map, and an empty result falls back to the built-in
default table, exactly like an absent file. -/
def load_artist_metadata (rows : List CsvRow) : List (String × ArtistMeta) :=
  let metadata := metadata_of_rows rows
  if metadata.isEmpty then DEFAULT_ARTIST_METADATA else metadata

/-- A network event of the run, in the order requests are issued. -/
inductive NetEvent where
  | tokenExchange
  | snapshotFetch (playlistId : String)
  | pageFetch (url : String)
  | featureFetch (ids : List String)
deriving DecidableEq, Repr

/-- One value of the skipped-playlists map. -/
structure SkipEntry where
  playlistId : String
  status : String
  message : String
deriving DecidableEq, Repr

/-- The raw per-slug audit payload the orchestrator persists for every
playlist whose snapshot fetch succeeded. -/
structure RawPayload where
  slug : String
  playlistId : String
  fetchedAt : String
  config : PlaylistCfg
  snapshot : Snapshot
  trackItems : List TrackItem
  audioFeatures : List (String × FeatureEntry)
  missingArtists : List String
deriving DecidableEq, Repr

/-- runMetadata of the output dataset. -/
structure RunMeta where
  startedAt : String
  generatedAt : String
  playlistCount : Nat
  missingArtists : List String
  skippedPlaylists : List (String × SkipEntry)
deriving DecidableEq, Repr

/-- The output dataset. -/
structure Dataset where
  playlists : List PlaylistRec
  runMetadata : RunMeta
deriving DecidableEq, Repr

/-- Everything a successful run produces: the dataset (written to the two
output files) and the raw per-slug files. -/
structure RunResult where
  dataset : Dataset
  raws : List (String × RawPayload)
deriving DecidableEq, Repr

/-- The network, as oracles: the token endpoint, the snapshot endpoint
(keyed by playlist id and optional market), the pagination pages (keyed by
URL) and the audio-features endpoint (keyed by the batch).  fuel bounds the
cursor walk. -/
structure World where
  token : Except HttpFailure String
  snapshot : String → Option String → Except HttpFailure Snapshot
  page : String → Except HttpFailure Page
  featureBatch : List String → Except HttpFailure (List (Option FeatureEntry))
  fuel : Nat

/-- Mutable state of the orchestrator loop. -/
structure RunState where
  events : List NetEvent
  playlists : List PlaylistRec
  missing : List String
  skipped : List (String × SkipEntry)
  raws : List (String × RawPayload)
deriving Repr

/-- The body of the orchestrator's per-playlist loop.  Returns the updated
state together with an error when the iteration aborts the run (missing id
key, pagination failure, or a crash inside normalization); a snapshot-fetch
failure is caught and becomes a skip entry instead. -/
def process_playlist (w : World) (artist_metadata : List (String × ArtistMeta))
    (now : String) (st : RunState) (slug : String) (cfg : PlaylistCfg) :
    RunState × Option RunErr :=
  match cfg.id with
  | none => (st, some (.sysExitMissingId slug))
  | some pid =>
    match w.snapshot pid cfg.market with
    | .error f =>
      ({ st with
          events := st.events ++ [.snapshotFetch pid],
          skipped := (dictInsert st.skipped slug
            ⟨pid, toString f.status,
              (if f.text = "" then f.reason else f.text).take 200⟩) }, none)
    | .ok snap =>
      match fetch_all_playlist_tracks snap w.page w.fuel with
      | (urls, .error e) =>
        ({ st with events := (st.events ++ [.snapshotFetch pid]) ++
            urls.map NetEvent.pageFetch }, some e)
      | (urls, .ok track_items) =>
        match (if (collect_track_ids track_items).isEmpty then ([], [])
               else fetch_audio_features (collect_track_ids track_items) w.featureBatch) with
        | (audio_features, reqs) =>
          match normalize_playlist slug cfg snap track_items audio_features
              artist_metadata [] with
          | .error e =>
            ({ st with events := ((st.events ++ [.snapshotFetch pid]) ++
                urls.map NetEvent.pageFetch) ++ reqs.map NetEvent.featureFetch }, some e)
          | .ok (rec, missing_for) =>
            ({ st with
              events := ((st.events ++ [.snapshotFetch pid]) ++
                urls.map NetEvent.pageFetch) ++ reqs.map NetEvent.featureFetch,
              playlists := st.playlists ++ [rec],
              missing := if missing_for.isEmpty then st.missing
                else missing_for.foldl pySetAdd st.missing,
              raws := st.raws ++ [(slug,
                ⟨slug, pid, now, cfg, snap, track_items, audio_features,
                  sortStr missing_for⟩)] }, none)

/-- The orchestrator loop over the configured playlists, in configuration
order, stopping at the first aborting iteration. -/
def main_loop (w : World) (artist_metadata : List (String × ArtistMeta)) (now : String) :
    RunState → List (String × PlaylistCfg) → RunState × Option RunErr
  | st, [] => (st, none)
  | st, (slug, cfg) :: rest =>
    match process_playlist w artist_metadata now st slug cfg with
    | (st1, some e) => (st1, some e)
    | (st1, none) => main_loop w artist_metadata now st1 rest

/-- main from the source, from the point where configuration and artist
metadata have been loaded: the token exchange happens first; then the
playlist loop; then the dataset is assembled with the sorted run-wide
missing-artist list and the skip map.  The result pairs the network event
trace with either the produced outputs or the aborting error.  Timestamps
are abstracted by the single parameter now. -/
def main_run (playlist_config : List (String × PlaylistCfg))
    (artist_metadata : List (String × ArtistMeta)) (w : World) (now : String) :
    List NetEvent × Except RunErr RunResult :=
  match w.token with
  | .error f => ([.tokenExchange], .error (.httpError f))
  | .ok _ =>
    match main_loop w artist_metadata now ⟨[.tokenExchange], [], [], [], []⟩ playlist_config with
    | (st, some e) => (st.events, .error e)
    | (st, none) =>
      (st.events, .ok {
        dataset := {
          playlists := st.playlists,
          runMetadata := {
            startedAt := now,
            generatedAt := now,
            playlistCount := st.playlists.length,
            missingArtists := sortStr st.missing,
            skippedPlaylists := st.skipped } },
        raws := st.raws })

/-- Follows the claim's words for the launch year: the release year of the
first item in original order whose release year is determinable at all. -/
def first_determinable_release_year : List TrackItem → Option Int
  | [] => none
  | i :: rest =>
    match i.track with
    | some (some t) =>
      match parse_release_year t.album with
      | some y => some y
      | none => first_determinable_release_year rest
    | _ => first_determinable_release_year rest

/-- The value the source's launch-year scan computes on crash-free input: the
first parsed release year that is truthy, i.e. present and nonzero. -/
def first_truthy_release_year : List TrackItem → Option Int
  | [] => none
  | i :: rest =>
    match i.track with
    | some (some t) =>
      match parse_release_year t.album with
      | some y => if y = 0 then first_truthy_release_year rest else some y
      | none => first_truthy_release_year rest
    | _ => first_truthy_release_year rest

/-- Extracts the launch year from a normalization result, none on a crash. -/
def launchYear_of (r : Except RunErr (PlaylistRec × List String)) : Option (Option Int) :=
  match r with
  | .ok p => some p.1.launchYear
  | .error _ => none

/-- Extracts the playlist display name from a normalization result. -/
def name_of (r : Except RunErr (PlaylistRec × List String)) : Option (Option String) :=
  match r with
  | .ok p => some p.1.name
  | .error _ => none

/-- The tracks loop crashes whenever some item holds an explicit null track. -/
theorem tracks_error_of_null (meta : List (String × ArtistMeta))
    (af : List (String × FeatureEntry)) :
    ∀ (items : List TrackItem) (acc : List String),
    (∃ i ∈ items, i.track = some none) →
    ∃ e, tracks_and_missing meta af items acc = .error e := by
  intro items
  induction items with
  | nil =>
    intro acc h
    obtain ⟨i, hi, _⟩ := h
    cases hi
  | cons j rest ih =>
    intro acc h
    match hj : j.track with
    | some none =>
      exact ⟨.attributeError, by simp [tracks_and_missing, hj]⟩
    | none =>
      obtain ⟨i, hi, hnull⟩ := h
      rcases List.mem_cons.mp hi with heq | hmem
      · rw [heq] at hnull; rw [hnull] at hj; cases hj
      · obtain ⟨e, he⟩ := ih ((build_track_payload j none meta acc).2) ⟨i, hmem, hnull⟩
        exact ⟨e, by simp [tracks_and_missing, hj, he]⟩
    | some (some t) =>
      obtain ⟨i, hi, hnull⟩ := h
      rcases List.mem_cons.mp hi with heq | hmem
      · rw [heq] at hnull; rw [hnull] at hj; cases hj
      · obtain ⟨e, he⟩ := ih ((build_track_payload j
            (match t.id with
             | some s => dictGet af s
             | none => none) meta acc).2) ⟨i, hmem, hnull⟩
        exact ⟨e, by simp [tracks_and_missing, hj, he]⟩

/-- On null-free input the launch-year scan cannot crash, and it computes
exactly the first truthy release year. -/
theorem launch_year_scan_no_null :
    ∀ (items : List TrackItem), (∀ i ∈ items, i.track ≠ some none) →
    launch_year_scan items = .ok (first_truthy_release_year items) := by
  intro items
  induction items with
  | nil => intro _; rfl
  | cons i rest ih =>
    intro h
    have hrest := ih (fun j hj => h j (List.mem_cons_of_mem i hj))
    match hi : i.track with
    | some none => exact absurd hi (h i (List.mem_cons_self i rest))
    | none => simpa [launch_year_scan, first_truthy_release_year, hi] using hrest
    | some (some t) =>
      match hy : parse_release_year t.album with
      | some v =>
        by_cases hv : v = 0
        · simpa [launch_year_scan, first_truthy_release_year, hi, hy, hv] using hrest
        · simp [launch_year_scan, first_truthy_release_year, hi, hy, hv]
      | none => simpa [launch_year_scan, first_truthy_release_year, hi, hy] using hrest

/-- If the tracks loop did not crash, no item holds an explicit null track,
so the launch-year scan succeeds and computes the first truthy year. -/
theorem launch_year_scan_of_tracks_ok (meta : List (String × ArtistMeta))
    (af : List (String × FeatureEntry)) (items : List TrackItem) (acc : List String)
    (x : List TrackRec × List String)
    (h : tracks_and_missing meta af items acc = .ok x) :
    launch_year_scan items = .ok (first_truthy_release_year items) := by
  apply launch_year_scan_no_null
  intro i hi hnull
  obtain ⟨e, he⟩ := tracks_error_of_null meta af items acc ⟨i, hi, hnull⟩
  rw [he] at h
  cases h

/-- C7: release-year derivation.  The ISO date string gives 2023, the bare
year string gives 2023, a string that parses neither as an ISO date on its
first 10 characters nor as an integer on its first 4 gives no year rather
than an error, and a missing album or release date gives no year. -/
theorem c7_release_year (s : String)
    (hiso : isoDateYear (s.take 10) = none) (hint : pyInt (s.take 4) = none) :
    parse_release_year (some ⟨some "2023-05-10"⟩) = some 2023
    ∧ parse_release_year (some ⟨some "2023"⟩) = some 2023
    ∧ parse_release_year (some ⟨some s⟩) = none
    ∧ parse_release_year none = none
    ∧ parse_release_year (some ⟨none⟩) = none := by
  refine ⟨rfl, by decide, ?_, rfl, rfl⟩
  unfold parse_release_year
  by_cases hs : s = ""
  · simp [hs]
  · simp [hs, hiso, hint]

theorem c7_release_year_witness :
    parse_release_year (some ⟨some "2023-05-10"⟩) = some 2023
    ∧ parse_release_year (some ⟨some "2023"⟩) = some 2023
    ∧ parse_release_year (some ⟨some "not-a-date"⟩) = none
    ∧ parse_release_year none = none
    ∧ parse_release_year (some ⟨none⟩) = none :=
  c7_release_year "not-a-date" (by decide) (by decide)

/-- The item list, configuration, snapshot and world for the null-track
scenario: one item whose track field is an explicit JSON null. -/
def c1_items : List TrackItem := [⟨some none⟩]

def c1_cfg : PlaylistCfg := ⟨some "P1", none, none, none⟩

def c1_snap : Snapshot := ⟨none, none, none, none, some (some ⟨none, c1_items⟩)⟩

def c1_world : World :=
  { token := .ok "tok",
    snapshot := fun _ _ => .ok c1_snap,
    page := fun _ => .error ⟨404, "", ""⟩,
    featureBatch := fun _ => .ok [],
    fuel := 1 }

/-- C1: contrary to the claim, a track-item entry whose nested track field is
an explicit null DOES crash playlist processing: normalize_playlist raises
AttributeError (the dict.get default of an empty dict does not apply to a
present null, so .get is called on None), and the whole run aborts.  Only
the feature-id collection tolerates the entry, as the claim says. -/
theorem c1_null_track_crashes :
    normalize_playlist "s" c1_cfg c1_snap c1_items [] [] [] = .error .attributeError
    ∧ collect_track_ids c1_items = []
    ∧ (main_run [("s", c1_cfg)] [] c1_world "T").2 = .error .attributeError :=
  ⟨rfl, rfl, rfl⟩

/-- C4 (amended): for every playlist record actually produced, launchYear is
the first truthy parsed release year over the original unfiltered item list:
items whose year is unparseable are skipped, and so are items whose date
parses to the year 0 (Python integer truthiness), even though such a year is
determinable; the item that sets it may itself be excluded from the final
tracks (the scan never looks at the local flag or the id), and launchYear is
absent when no item yields a nonzero year. -/
theorem c4_launch_year (slug : String) (cfg : PlaylistCfg) (snap : Snapshot)
    (items : List TrackItem) (af : List (String × FeatureEntry))
    (meta : List (String × ArtistMeta)) (acc : List String)
    (rec : PlaylistRec) (m : List String)
    (hok : normalize_playlist slug cfg snap items af meta acc = .ok (rec, m)) :
    rec.launchYear = first_truthy_release_year items := by
  unfold normalize_playlist at hok
  match ht : tracks_and_missing meta af items acc with
  | .error e => rw [ht] at hok; exact absurd hok (by simp)
  | .ok (tp, m1) =>
    rw [ht] at hok
    have hscan := launch_year_scan_of_tracks_ok meta af items acc (tp, m1) ht
    match ho : snap.owner with
    | some none => rw [ho] at hok; exact absurd hok (by simp)
    | none =>
      rw [ho] at hok
      match hf : snap.followers with
      | some none => rw [hf] at hok; exact absurd hok (by simp)
      | none =>
        rw [hf, hscan] at hok
        simp only [Except.ok.injEq, Prod.mk.injEq] at hok
        rw [← hok.1]
      | some (some fo) =>
        rw [hf, hscan] at hok
        simp only [Except.ok.injEq, Prod.mk.injEq] at hok
        rw [← hok.1]
    | some (some o) =>
      rw [ho] at hok
      match hf : snap.followers with
      | some none => rw [hf] at hok; exact absurd hok (by simp)
      | none =>
        rw [hf, hscan] at hok
        simp only [Except.ok.injEq, Prod.mk.injEq] at hok
        rw [← hok.1]
      | some (some fo) =>
        rw [hf, hscan] at hok
        simp only [Except.ok.injEq, Prod.mk.injEq] at hok
        rw [← hok.1]

/-- Two items whose release dates are the string of four zeros (year 0,
determinable but falsy) and an ISO date in 2023. -/
def c4_items : List TrackItem :=
  [⟨some (some ⟨some "A", none, none, [], some ⟨some "0000"⟩⟩)⟩,
   ⟨some (some ⟨some "B", none, none, [], some ⟨some "2023-05-10"⟩⟩)⟩]

def c4_cfg : PlaylistCfg := ⟨some "P4", none, none, none⟩

def c4_snap : Snapshot := ⟨none, none, none, none, none⟩

/-- C4 fails as stated: with a first item whose release year is determinable
but zero, the claim says launchYear is that year (0), while the code skips it
by integer truthiness and reports 2023 from the second item. -/
theorem c4_counterexample :
    first_determinable_release_year c4_items = some 0
    ∧ launchYear_of (normalize_playlist "s" c4_cfg c4_snap c4_items [] [] []) =
        some (some 2023)
    ∧ (some (some 2023) : Option (Option Int)) ≠ some (some 0) :=
  ⟨rfl, rfl, by decide⟩

/-- Scenario for the amended C4: the first item is a local file (excluded
from the output tracks) with a 2024 release date, the second a kept track
from 2020: launchYear is 2024, set by the excluded item, not the minimum. -/
def c4w_items : List TrackItem :=
  [⟨some (some ⟨some "L1", some true, some "Local Song", [], some ⟨some "2024-03-01"⟩⟩)⟩,
   ⟨some (some ⟨some "T2", none, some "Kept Song", [⟨some "Rema"⟩], some ⟨some "2020-01-01"⟩⟩)⟩]

def c4w_rec : PlaylistRec :=
  { id := "wl", name := some "wl", curatorType := some "Unknown",
    curator := "Unknown", followerCount := none, launchYear := some 2024,
    description := none,
    tracks := [{ id := "T2", title := "Kept Song", artist := "Rema",
                 artistCountry := "Nigeria", regionGroup := "Nigeria",
                 diaspora := false, releaseYear := some 2020, features := none }] }

theorem c4_launch_year_witness :
    c4w_rec.launchYear = first_truthy_release_year c4w_items
    ∧ first_truthy_release_year c4w_items = some 2024
    ∧ c4w_rec.tracks.map TrackRec.id = ["T2"] :=
  ⟨c4_launch_year "wl" c4_cfg c4_snap c4w_items [] DEFAULT_ARTIST_METADATA []
      c4w_rec [] rfl, rfl, rfl⟩

/-- Unfolding rule for the chunked generator: with a positive batch size the
first batch is the first size elements and the rest is chunked recursively. -/
theorem chunkedGo_eq (size : Nat) (_hs : 0 < size) :
    ∀ (l acc : List String), acc.length < size →
    chunkedGo size l acc =
      if acc ++ l = [] then []
      else (acc ++ l).take size :: chunked ((acc ++ l).drop size) size := by
  intro l
  induction l with
  | nil =>
    intro acc hacc
    match acc with
    | [] => rfl
    | a :: as =>
      simp only [chunkedGo, List.isEmpty_cons, List.append_nil]
      rw [if_neg (by simp)]
      rw [List.take_of_length_le (Nat.le_of_lt hacc),
        List.drop_eq_nil_of_le (Nat.le_of_lt hacc)]
      rfl
  | cons x xs ih =>
    intro acc hacc
    rw [chunkedGo]
    by_cases hfull : size ≤ (acc ++ [x]).length
    · have hlen : (acc ++ [x]).length = size := by
        simp only [List.length_append, List.length_cons, List.length_nil] at hfull ⊢
        omega
      rw [if_pos hfull]
      have h2 : acc ++ x :: xs = (acc ++ [x]) ++ xs := by simp
      rw [if_neg (by simp), h2, List.take_left' hlen, List.drop_left' hlen]
      rfl
    · rw [if_neg hfull]
      have hlt : (acc ++ [x]).length < size := Nat.lt_of_not_le hfull
      have h2 : (acc ++ [x]) ++ xs = acc ++ x :: xs := by simp
      rw [ih (acc ++ [x]) hlt, h2]

/-- chunked splits off the first batch of a positive batch size. -/
theorem chunked_eq (l : List String) (size : Nat) (hs : 0 < size) :
    chunked l size =
      if l = [] then [] else l.take size :: chunked (l.drop size) size := by
  have h := chunkedGo_eq size hs l [] hs
  simpa [chunked] using h

/-- C5: the feature fetch partitions its input into order-preserving batches
of at most 100 ids: 250 ids give exactly the three batches of sizes 100, 100
and 50 whose concatenation is the input; every batch is requested; a failing
middle batch leaves the result map exactly the insertions of the first and
third batches' entries; and an empty input yields an empty map with no
request issued. -/
theorem c5_feature_batches (l : List String)
    (o o2 : List String → Except HttpFailure (List (Option FeatureEntry)))
    (r1 r3 : List (Option FeatureEntry)) (e : HttpFailure)
    (hlen : l.length = 250)
    (h1 : o (l.take 100) = .ok r1)
    (h2 : o ((l.drop 100).take 100) = .error e)
    (h3 : o (l.drop 200) = .ok r3) :
    chunked l 100 = [l.take 100, (l.drop 100).take 100, l.drop 200]
    ∧ (chunked l 100).map List.length = [100, 100, 50]
    ∧ (chunked l 100).foldr (· ++ ·) [] = l
    ∧ fetch_audio_features l o =
        (apply_feature_entries (apply_feature_entries [] r1) r3,
          chunked l 100)
    ∧ fetch_audio_features [] o2 = ([], []) := by
  have hne : l ≠ [] := by intro h; rw [h] at hlen; cases hlen
  have hd100 : (l.drop 100).length = 150 := by rw [List.length_drop, hlen]
  have hd200 : (l.drop 200).length = 50 := by rw [List.length_drop, hlen]
  have hne1 : l.drop 100 ≠ [] := by
    intro h; rw [h] at hd100; cases hd100
  have hne2 : l.drop 200 ≠ [] := by
    intro h; rw [h] at hd200; cases hd200
  have hdd : (l.drop 100).drop 100 = l.drop 200 := by rw [List.drop_drop]
  have hc : chunked l 100 = [l.take 100, (l.drop 100).take 100, l.drop 200] := by
    rw [chunked_eq l 100 (by omega), if_neg hne,
      chunked_eq (l.drop 100) 100 (by omega), if_neg hne1, hdd,
      chunked_eq (l.drop 200) 100 (by omega), if_neg hne2,
      List.take_of_length_le (by omega : (l.drop 200).length ≤ 100),
      List.drop_eq_nil_of_le (by omega : (l.drop 200).length ≤ 100)]
    rfl
  refine ⟨hc, ?_, ?_, ?_, rfl⟩
  · rw [hc]
    simp only [List.map_cons, List.map_nil, List.length_take, List.length_drop,
      hlen, hd200]
    rfl
  · rw [hc]
    simp only [List.foldr_cons, List.foldr_nil, List.append_nil, List.append_assoc]
    rw [← hdd, List.take_append_drop, List.take_append_drop]
  · unfold fetch_audio_features
    rw [hc]
    simp only [fetchFeaturesGo, h1, h2, h3]
    simp

/-- 250 concrete track ids. -/
def c5L : List String := (List.range 250).map toString

/-- A feature oracle that rejects exactly the middle batch (the one whose
first id is 100) and answers every other batch with an empty entry list. -/
def c5O : List String → Except HttpFailure (List (Option FeatureEntry)) :=
  fun b => if b.head? = some "100" then .error ⟨500, "boom", ""⟩ else .ok []

theorem c5_feature_batches_witness :
    chunked c5L 100 = [c5L.take 100, (c5L.drop 100).take 100, c5L.drop 200]
    ∧ (chunked c5L 100).map List.length = [100, 100, 50]
    ∧ (chunked c5L 100).foldr (· ++ ·) [] = c5L
    ∧ fetch_audio_features c5L c5O =
        (apply_feature_entries (apply_feature_entries [] []) [], chunked c5L 100)
    ∧ fetch_audio_features [] c5O = ([], []) :=
  c5_feature_batches c5L c5O c5O [] [] ⟨500, "boom", ""⟩ rfl rfl rfl rfl

/-- The guard of build_track_payload: true when it returns None, i.e. the
nested track is absent or null, flagged local, or has a falsy id. -/
def dropped_by_build (i : TrackItem) : Bool :=
  match i.track with
  | some (some t) => t.is_local.getD false || !(pyTruthyStr t.id)
  | _ => true

/-- The guard of the orchestrator's id collection: true when the item
contributes an id to the feature fetch, i.e. the track field is a truthy
object and its id is truthy.  The local flag is NOT consulted. -/
def contributes_feature_id (i : TrackItem) : Bool :=
  match i.track with
  | some (some t) => pyTruthyStr t.id
  | _ => false

/-- A dropped item yields no record and leaves the missing set untouched. -/
theorem build_none_of_dropped (item : TrackItem) (f : Option FeatureEntry)
    (meta : List (String × ArtistMeta)) (acc : List String)
    (h : dropped_by_build item = true) :
    build_track_payload item f meta acc = (none, acc) := by
  match hti : item.track with
  | none => simp [build_track_payload, hti]
  | some none => simp [build_track_payload, hti]
  | some (some t) =>
    simp only [dropped_by_build, hti] at h
    by_cases hl : t.is_local.getD false
    · simp [build_track_payload, hti, hl]
    · simp only [hl, Bool.false_or, Bool.not_eq_true'] at h
      match hid : t.id with
      | none => simp [build_track_payload, hti, hl, hid]
      | some s =>
        rw [hid] at h
        simp only [pyTruthyStr, ne_eq, decide_not, Bool.not_eq_false',
          decide_eq_true_eq] at h
        simp [build_track_payload, hti, hl, hid, h]

/-- collect_track_ids distributes over list append. -/
theorem collect_track_ids_append (a b : List TrackItem) :
    collect_track_ids (a ++ b) = collect_track_ids a ++ collect_track_ids b := by
  simp [collect_track_ids, List.filter_append, List.map_append, List.filterMap_append]

/-- An item that does not contribute a feature id adds nothing to the id
collection. -/
theorem collect_track_ids_single_none (item : TrackItem)
    (hci : contributes_feature_id item = false) :
    collect_track_ids [item] = [] := by
  match hti : item.track with
  | none => simp [collect_track_ids, hti]
  | some none => simp [collect_track_ids, hti]
  | some (some t) =>
    simp only [contributes_feature_id, hti] at hci
    match hid : t.id with
    | none => simp [collect_track_ids, hti, hid]
    | some s =>
      rw [hid] at hci
      simp only [pyTruthyStr, ne_eq, decide_not, Bool.not_eq_false',
        decide_eq_true_eq] at hci
      simp [collect_track_ids, hti, hid, hci]

/-- C6 (amended): a track item whose nested track is absent, local or id-less
yields no record from build_track_payload; when its track field is moreover
not an explicit null, its presence anywhere in the item list changes neither
the produced tracks sequence nor the missing-artist accumulation; and when it
does not carry a truthy id under a present track object it contributes no id
to the feature fetch.  (A local track that still has a catalog id does
contribute its id: see the counterexample.) -/
theorem c6_dropped_items (l1 l2 : List TrackItem) (item : TrackItem)
    (f : Option FeatureEntry) (meta : List (String × ArtistMeta))
    (af : List (String × FeatureEntry)) (acc : List String)
    (hexc : dropped_by_build item = true)
    (hnn : item.track ≠ some none)
    (hci : contributes_feature_id item = false) :
    build_track_payload item f meta acc = (none, acc)
    ∧ tracks_and_missing meta af (l1 ++ item :: l2) acc =
        tracks_and_missing meta af (l1 ++ l2) acc
    ∧ collect_track_ids (l1 ++ item :: l2) = collect_track_ids (l1 ++ l2) := by
  refine ⟨build_none_of_dropped item f meta acc hexc, ?_, ?_⟩
  · induction l1 generalizing acc with
    | nil =>
      simp only [List.nil_append]
      match hti : item.track with
      | some none => exact absurd hti hnn
      | none =>
        simp only [tracks_and_missing, hti,
          build_none_of_dropped item none meta acc hexc]
        cases hres : tracks_and_missing meta af l2 acc with
        | error e => simp [hres]
        | ok p => cases p; simp [hres]
      | some (some t) =>
        simp only [tracks_and_missing, hti,
          build_none_of_dropped item
            (match t.id with
             | some s => dictGet af s
             | none => none) meta acc hexc]
        cases hres : tracks_and_missing meta af l2 acc with
        | error e => simp [hres]
        | ok p => cases p; simp [hres]
    | cons j l1t ih =>
      match htj : j.track with
      | some none => simp [tracks_and_missing, htj]
      | none => simp only [List.cons_append, tracks_and_missing, htj, List.append_eq, ih]
      | some (some t) =>
        simp only [List.cons_append, tracks_and_missing, htj, List.append_eq, ih]
  · have hs := collect_track_ids_single_none item hci
    have h1 : item :: l2 = [item] ++ l2 := rfl
    rw [h1, collect_track_ids_append, collect_track_ids_append, hs,
      collect_track_ids_append, List.nil_append]

/-- A local-file track that still carries a catalog id. -/
def c6_local_item : TrackItem := ⟨some (some ⟨some "X", some true, none, [], none⟩)⟩

/-- C6 fails as stated for local tracks that carry an id: the item is
excluded from the output (build_track_payload gives None) yet its id IS
collected and sent to the feature fetch. -/
theorem c6_counterexample :
    build_track_payload c6_local_item none [] [] = (none, [])
    ∧ collect_track_ids [c6_local_item] = ["X"]
    ∧ (["X"] : List String) ≠ ([] : List String) :=
  ⟨rfl, rfl, by decide⟩

/-- An id-less track item. -/
def c6_idless_item : TrackItem := ⟨some (some ⟨none, none, some "No Id", [], none⟩)⟩

theorem c6_dropped_items_witness :
    build_track_payload c6_idless_item none DEFAULT_ARTIST_METADATA [] = (none, [])
    ∧ tracks_and_missing DEFAULT_ARTIST_METADATA [] (c4w_items ++ c6_idless_item :: []) [] =
        tracks_and_missing DEFAULT_ARTIST_METADATA [] (c4w_items ++ []) []
    ∧ collect_track_ids (c4w_items ++ c6_idless_item :: []) =
        collect_track_ids (c4w_items ++ []) :=
  c6_dropped_items c4w_items [] c6_idless_item none DEFAULT_ARTIST_METADATA [] []
    rfl (by decide) rfl

/-- A blank-artist row leaves the accumulated metadata unchanged. -/
theorem artist_row_step_blank (m : List (String × ArtistMeta)) (row : CsvRow)
    (h : pyStrip (pyOrStr row.artist "") = "") : artist_row_step m row = m := by
  simp [artist_row_step, h]

/-- Folding only blank-artist rows changes nothing. -/
theorem foldl_artist_rows_blank :
    ∀ (rows : List CsvRow) (m : List (String × ArtistMeta)),
    (∀ s ∈ rows, pyStrip (pyOrStr s.artist "") = "") →
    rows.foldl artist_row_step m = m := by
  intro rows
  induction rows with
  | nil => intro m _; rfl
  | cons r rest ih =>
    intro m h
    rw [List.foldl_cons, artist_row_step_blank m r (h r (List.mem_cons_self r rest))]
    exact ih m (fun s hs => h s (List.mem_cons_of_mem r hs))

/-- C10: with the metadata file present and well-formed, a row whose artist
cell is absent or blank after stripping is silently skipped wherever it
occurs, and when every row is blank the loader falls back to the built-in
default artist table, exactly as if the file were absent. -/
theorem c10_blank_artist_rows (r1 r2 rows : List CsvRow) (bad : CsvRow)
    (hbad : pyStrip (pyOrStr bad.artist "") = "")
    (hall : ∀ s ∈ rows, pyStrip (pyOrStr s.artist "") = "") :
    metadata_of_rows (r1 ++ bad :: r2) = metadata_of_rows (r1 ++ r2)
    ∧ load_artist_metadata rows = DEFAULT_ARTIST_METADATA := by
  constructor
  · unfold metadata_of_rows
    rw [List.foldl_append, List.foldl_append, List.foldl_cons,
      artist_row_step_blank _ bad hbad]
  · unfold load_artist_metadata metadata_of_rows
    rw [foldl_artist_rows_blank rows [] hall]
    rfl

/-- Four concrete rows: a missing artist cell, an all-whitespace artist cell,
and two real rows around a blank one. -/
def c10_blank_rows : List CsvRow :=
  [⟨none, some "Nigeria", some "Nigeria", some "false"⟩,
   ⟨some "   ", some "Ghana", some "Ghana", some "yes"⟩]

def c10_row_wizkid : CsvRow := ⟨some "Wizkid", some "Nigeria", some "Nigeria", some "no"⟩

def c10_row_tems : CsvRow := ⟨some " Tems ", some "Nigeria", some "Nigeria", some "YES"⟩

theorem c10_blank_artist_rows_witness :
    metadata_of_rows ([c10_row_wizkid] ++ ⟨some "", none, none, none⟩ :: [c10_row_tems]) =
      metadata_of_rows ([c10_row_wizkid] ++ [c10_row_tems])
    ∧ load_artist_metadata c10_blank_rows = DEFAULT_ARTIST_METADATA :=
  c10_blank_artist_rows [c10_row_wizkid] [c10_row_tems] c10_blank_rows
    ⟨some "", none, none, none⟩ rfl (by decide)

/-- C9 (amended): the display name is the snapshot's name value whenever the
name key is present, even when that value is null or empty (the dict.get
default fires only for an absent key), falling back to the configured label
only when the name key is absent, and to the slug only when the label key is
absent too; the curator display name, by contrast, uses truthiness: the
owner's display name when present and non-empty, else the owner's id when
present and non-empty, else Unknown (and Unknown when the owner key is
absent). -/
theorem c9_display_names (slug : String) (cfg : PlaylistCfg) (snap : Snapshot)
    (items : List TrackItem) (af : List (String × FeatureEntry))
    (meta : List (String × ArtistMeta)) (acc : List String)
    (rec : PlaylistRec) (m : List String) (o : OwnerObj)
    (hok : normalize_playlist slug cfg snap items af meta acc = .ok (rec, m)) :
    rec.name = (match snap.name with
      | some v => v
      | none =>
        match cfg.label with
        | some v => v
        | none => some slug)
    ∧ (snap.owner = none → rec.curator = "Unknown")
    ∧ (snap.owner = some (some o) →
        rec.curator = pyOrStr o.display_name (pyOrStr o.id "Unknown")) := by
  unfold normalize_playlist at hok
  match ht : tracks_and_missing meta af items acc with
  | .error e => rw [ht] at hok; exact absurd hok (by simp)
  | .ok (tp, m1) =>
    rw [ht] at hok
    match ho : snap.owner with
    | some none => rw [ho] at hok; exact absurd hok (by simp)
    | none =>
      rw [ho] at hok
      match hf : snap.followers with
      | some none => rw [hf] at hok; exact absurd hok (by simp)
      | none =>
        rw [hf] at hok
        match hl : launch_year_scan items with
        | .error e => rw [hl] at hok; exact absurd hok (by simp)
        | .ok ly =>
          rw [hl] at hok
          simp only [Except.ok.injEq, Prod.mk.injEq] at hok
          refine ⟨by rw [← hok.1], fun _ => by rw [← hok.1]; rfl, fun h => ?_⟩
          cases h
      | some (some fo) =>
        rw [hf] at hok
        match hl : launch_year_scan items with
        | .error e => rw [hl] at hok; exact absurd hok (by simp)
        | .ok ly =>
          rw [hl] at hok
          simp only [Except.ok.injEq, Prod.mk.injEq] at hok
          refine ⟨by rw [← hok.1], fun _ => by rw [← hok.1]; rfl, fun h => ?_⟩
          cases h
    | some (some o2) =>
      rw [ho] at hok
      match hf : snap.followers with
      | some none => rw [hf] at hok; exact absurd hok (by simp)
      | none =>
        rw [hf] at hok
        match hl : launch_year_scan items with
        | .error e => rw [hl] at hok; exact absurd hok (by simp)
        | .ok ly =>
          rw [hl] at hok
          simp only [Except.ok.injEq, Prod.mk.injEq] at hok
          refine ⟨by rw [← hok.1], fun h => ?_, fun h => ?_⟩
          · cases h
          · simp only [Option.some.injEq] at h
            rw [← h, ← hok.1]
      | some (some fo) =>
        rw [hf] at hok
        match hl : launch_year_scan items with
        | .error e => rw [hl] at hok; exact absurd hok (by simp)
        | .ok ly =>
          rw [hl] at hok
          simp only [Except.ok.injEq, Prod.mk.injEq] at hok
          refine ⟨by rw [← hok.1], fun h => ?_, fun h => ?_⟩
          · cases h
          · simp only [Option.some.injEq] at h
            rw [← h, ← hok.1]

/-- A configuration carrying the label Lbl, and a snapshot whose name key is
present with a null value. -/
def c9_cfg : PlaylistCfg := ⟨some "P9", none, some (some "Lbl"), none⟩

def c9_snap : Snapshot :=
  ⟨some none, none, some (some ⟨some "Own", some "oid"⟩), none, none⟩

/-- C9 fails as stated: with the snapshot name present but null, no name is
available, yet the produced display name is null rather than the configured
label - the name fallback fires on key absence, not on availability. -/
theorem c9_counterexample :
    name_of (normalize_playlist "slug9" c9_cfg c9_snap [] [] [] []) =
      some (none : Option String)
    ∧ c9_cfg.label = some (some "Lbl")
    ∧ some (none : Option String) ≠ some (some "Lbl") :=
  ⟨rfl, rfl, by decide⟩

/-- Scenario for the amended C9: name key absent and label key absent give
the slug; an empty owner display name falls through to the owner id. -/
def c9w_cfg : PlaylistCfg := ⟨some "P9w", none, none, none⟩

def c9w_owner : OwnerObj := ⟨some "", some "ownerid"⟩

def c9w_snap : Snapshot := ⟨none, none, some (some c9w_owner), none, none⟩

def c9w_rec : PlaylistRec :=
  { id := "w9", name := some "w9", curatorType := some "Unknown",
    curator := "ownerid", followerCount := none, launchYear := none,
    description := none, tracks := [] }

theorem c9_display_names_witness :
    (c9w_rec.name = (match c9w_snap.name with
      | some v => v
      | none =>
        match c9w_cfg.label with
        | some v => v
        | none => some "w9")
    ∧ (c9w_snap.owner = none → c9w_rec.curator = "Unknown")
    ∧ (c9w_snap.owner = some (some c9w_owner) →
        c9w_rec.curator = pyOrStr c9w_owner.display_name (pyOrStr c9w_owner.id "Unknown")))
    ∧ c9w_rec.name = some "w9" ∧ c9w_rec.curator = "ownerid" :=
  ⟨c9_display_names "w9" c9w_cfg c9w_snap [] [] [] [] c9w_rec [] c9w_owner rfl,
    rfl, rfl⟩

/-- Once the loop reaches a config entry with no id key it aborts, so
everything after that entry is irrelevant to the run. -/
theorem main_loop_stops_at_missing_id (w : World) (meta : List (String × ArtistMeta))
    (now slug : String) (cfg : PlaylistCfg)
    (post post2 : List (String × PlaylistCfg)) (hbad : cfg.id = none) :
    ∀ (pre : List (String × PlaylistCfg)) (st : RunState),
    main_loop w meta now st (pre ++ (slug, cfg) :: post) =
      main_loop w meta now st (pre ++ (slug, cfg) :: post2) := by
  intro pre
  induction pre with
  | nil =>
    intro st
    simp [main_loop, process_playlist, hbad]
  | cons p pret ih =>
    intro st
    obtain ⟨s, c⟩ := p
    simp only [List.cons_append, main_loop]
    cases hp : process_playlist w meta now st s c with
    | mk st1 oe =>
      cases oe with
      | some e => rfl
      | none => simpa using ih st1

/-- C2 (amended): a config entry lacking an id key aborts the run with
SystemExit when that entry is reached in configuration order.  The token
exchange has already happened by then - when the offending entry comes
first, the abort trace is exactly the token exchange - and no entry after
the offending one influences the run at all (in particular none of them is
fetched). -/
theorem c2_missing_id_abort (pre post post2 : List (String × PlaylistCfg))
    (slug : String) (cfg : PlaylistCfg) (meta : List (String × ArtistMeta))
    (w : World) (now tk : String)
    (hbad : cfg.id = none) (htok : w.token = .ok tk) :
    main_run (pre ++ (slug, cfg) :: post) meta w now =
      main_run (pre ++ [(slug, cfg)]) meta w now
    ∧ (main_run ((slug, cfg) :: post2) meta w now).1 = [NetEvent.tokenExchange]
    ∧ (main_run ((slug, cfg) :: post2) meta w now).2 =
        .error (.sysExitMissingId slug) := by
  refine ⟨?_, ?_, ?_⟩
  · unfold main_run
    rw [htok]
    rw [main_loop_stops_at_missing_id w meta now slug cfg post [] hbad pre]
  · unfold main_run
    rw [htok]
    simp [main_loop, process_playlist, hbad]
  · unfold main_run
    rw [htok]
    simp [main_loop, process_playlist, hbad]

/-- A config entry with no id key, and a world whose snapshot endpoint
always fails (so that any earlier well-formed entry turns into a skip). -/
def c2_bad_cfg : PlaylistCfg := ⟨none, none, none, none⟩

def c2_good_cfg : PlaylistCfg := ⟨some "G1", none, none, none⟩

def c2_world : World :=
  { token := .ok "tok",
    snapshot := fun _ _ => .error ⟨500, "oops", ""⟩,
    page := fun _ => .error ⟨500, "oops", ""⟩,
    featureBatch := fun _ => .ok [],
    fuel := 1 }

/-- C2 fails as stated: a run on a config whose entry lacks an id does abort,
but only after the token exchange - a network call - has been made. -/
theorem c2_counterexample :
    (main_run [("s0", c2_bad_cfg)] [] c2_world "T").1 = [NetEvent.tokenExchange]
    ∧ (main_run [("s0", c2_bad_cfg)] [] c2_world "T").2 =
        .error (.sysExitMissingId "s0")
    ∧ ([NetEvent.tokenExchange] : List NetEvent) ≠ ([] : List NetEvent) :=
  ⟨rfl, rfl, by decide⟩

theorem c2_missing_id_abort_witness :
    main_run ([("g", c2_good_cfg)] ++ ("s0", c2_bad_cfg) :: [("zz", c2_good_cfg)])
        [] c2_world "T" =
      main_run ([("g", c2_good_cfg)] ++ [("s0", c2_bad_cfg)]) [] c2_world "T"
    ∧ (main_run (("s0", c2_bad_cfg) :: [("zz", c2_good_cfg)]) [] c2_world "T").1 =
        [NetEvent.tokenExchange]
    ∧ (main_run (("s0", c2_bad_cfg) :: [("zz", c2_good_cfg)]) [] c2_world "T").2 =
        .error (.sysExitMissingId "s0") :=
  c2_missing_id_abort [("g", c2_good_cfg)] [("zz", c2_good_cfg)]
    [("zz", c2_good_cfg)] "s0" c2_bad_cfg [] c2_world "T" "tok" rfl rfl

/-- C3: a playlist whose snapshot fetch fails with a non-2xx response is
skipped: the loop iteration only records the snapshot request and adds a
skip entry keyed by the slug, holding the catalog id, the status code as a
string, and the response message truncated to 200 characters - the playlist
list and the raw files are untouched and the loop continues with the
remaining playlists; end to end, a single-playlist run yields a dataset with
no playlists, no raw file, and exactly that skip entry.  A non-2xx response
during pagination, by contrast, is not caught: the iteration aborts the run
with the HTTP error. -/
theorem c3_snapshot_skip_pagination_abort
    (slug slug2 : String) (cfg cfg2 : PlaylistCfg) (pid pid2 : String)
    (st : RunState) (w : World) (meta : List (String × ArtistMeta)) (now tk : String)
    (rest : List (String × PlaylistCfg))
    (f g : HttpFailure) (snap : Snapshot) (tb : TracksBlock) (u : String)
    (hid : cfg.id = some pid)
    (hsnap : w.snapshot pid cfg.market = .error f)
    (htok : w.token = .ok tk)
    (hid2 : cfg2.id = some pid2)
    (hsnap2 : w.snapshot pid2 cfg2.market = .ok snap)
    (htb : snap.tracks = some (some tb))
    (hnext : tb.next = some u)
    (hpage : w.page u = .error g)
    (hfuel : 0 < w.fuel) :
    process_playlist w meta now st slug cfg =
      ({ st with
          events := st.events ++ [.snapshotFetch pid],
          skipped := dictInsert st.skipped slug
            ⟨pid, toString f.status,
              (if f.text = "" then f.reason else f.text).take 200⟩ }, none)
    ∧ main_loop w meta now st ((slug, cfg) :: rest) =
        main_loop w meta now
          { st with
            events := st.events ++ [.snapshotFetch pid],
            skipped := dictInsert st.skipped slug
              ⟨pid, toString f.status,
                (if f.text = "" then f.reason else f.text).take 200⟩ } rest
    ∧ (main_run [(slug, cfg)] meta w now).2 = .ok {
        dataset := {
          playlists := [],
          runMetadata := {
            startedAt := now, generatedAt := now, playlistCount := 0,
            missingArtists := [],
            skippedPlaylists := [(slug,
              ⟨pid, toString f.status,
                (if f.text = "" then f.reason else f.text).take 200⟩)] } },
        raws := [] }
    ∧ (process_playlist w meta now st slug2 cfg2).2 = some (.httpError g) := by
  have hstepAll : ∀ st0 : RunState, process_playlist w meta now st0 slug cfg =
      ({ st0 with
          events := st0.events ++ [.snapshotFetch pid],
          skipped := dictInsert st0.skipped slug
            ⟨pid, toString f.status,
              (if f.text = "" then f.reason else f.text).take 200⟩ }, none) := by
    intro st0
    simp only [process_playlist, hid, hsnap]
  refine ⟨hstepAll st, ?_, ?_, ?_⟩
  · simp only [main_loop, hstepAll st]
  · simp only [main_run, htok, main_loop, hstepAll]
    simp [dictInsert, sortStr]
  · obtain ⟨n, hn⟩ : ∃ n, w.fuel = n + 1 :=
      ⟨w.fuel - 1, by omega⟩
    simp only [process_playlist, hid2, hsnap2, fetch_all_playlist_tracks, htb, hn,
      hnext, walkPages, hpage]

/-- A snapshot whose tracks block has a pagination cursor, and a world in
which the playlist BAD fails its snapshot fetch with a 404 while every page
request fails with a 502. -/
def c3_snap : Snapshot := ⟨none, none, none, none, some (some ⟨some "u1", []⟩)⟩

def c3_world : World :=
  { token := .ok "tok",
    snapshot := fun pid _ =>
      if pid = "BAD" then .error ⟨404, "Not found", "NF"⟩ else .ok c3_snap,
    page := fun _ => .error ⟨502, "Bad gateway", ""⟩,
    featureBatch := fun _ => .ok [],
    fuel := 1 }

def c3_bad_cfg : PlaylistCfg := ⟨some "BAD", none, none, none⟩

def c3_pag_cfg : PlaylistCfg := ⟨some "OK1", none, none, none⟩

def c3_st0 : RunState := ⟨[], [], [], [], []⟩

theorem c3_snapshot_skip_pagination_abort_witness :
    process_playlist c3_world [] "T" c3_st0 "p1" c3_bad_cfg =
      ({ c3_st0 with
          events := c3_st0.events ++ [.snapshotFetch "BAD"],
          skipped := dictInsert c3_st0.skipped "p1"
            ⟨"BAD", toString (404 : Nat),
              (if "Not found" = "" then "NF" else "Not found").take 200⟩ }, none)
    ∧ main_loop c3_world [] "T" c3_st0 (("p1", c3_bad_cfg) :: []) =
        main_loop c3_world [] "T"
          { c3_st0 with
            events := c3_st0.events ++ [.snapshotFetch "BAD"],
            skipped := dictInsert c3_st0.skipped "p1"
              ⟨"BAD", toString (404 : Nat),
                (if "Not found" = "" then "NF" else "Not found").take 200⟩ } []
    ∧ (main_run [("p1", c3_bad_cfg)] [] c3_world "T").2 = .ok {
        dataset := {
          playlists := [],
          runMetadata := {
            startedAt := "T", generatedAt := "T", playlistCount := 0,
            missingArtists := [],
            skippedPlaylists := [("p1",
              ⟨"BAD", toString (404 : Nat),
                (if "Not found" = "" then "NF" else "Not found").take 200⟩)] } },
        raws := [] }
    ∧ (process_playlist c3_world [] "T" c3_st0 "p2" c3_pag_cfg).2 =
        some (.httpError ⟨502, "Bad gateway", ""⟩) :=
  c3_snapshot_skip_pagination_abort "p1" "p2" c3_bad_cfg c3_pag_cfg "BAD" "OK1"
    c3_st0 c3_world [] "T" "tok" [] ⟨404, "Not found", "NF"⟩ ⟨502, "Bad gateway", ""⟩
    c3_snap ⟨some "u1", []⟩ "u1" rfl rfl rfl rfl rfl rfl rfl rfl (by decide)

/-- Set insertion preserves the no-duplicates invariant. -/
theorem pySetAdd_nodup (l : List String) (x : String) (h : l.Nodup) :
    (pySetAdd l x).Nodup := by
  unfold pySetAdd
  by_cases hx : x ∈ l
  · simpa [hx] using h
  · rw [if_neg hx]
    exact ((List.perm_append_singleton x l).nodup_iff).mpr (List.nodup_cons.mpr ⟨hx, h⟩)

/-- Folding set insertions preserves the no-duplicates invariant. -/
theorem foldl_pySetAdd_nodup :
    ∀ (xs l : List String), l.Nodup → (xs.foldl pySetAdd l).Nodup := by
  intro xs
  induction xs with
  | nil => intro l h; exact h
  | cons x xst ih =>
    intro l h
    exact ih (pySetAdd l x) (pySetAdd_nodup l x h)

/-- One loop iteration preserves the no-duplicates invariant of the run-wide
missing-artist set. -/
theorem process_playlist_missing_nodup (w : World) (meta : List (String × ArtistMeta))
    (now : String) (st : RunState) (s : String) (c : PlaylistCfg)
    (st1 : RunState) (oe : Option RunErr)
    (hp : process_playlist w meta now st s c = (st1, oe))
    (h : st.missing.Nodup) : st1.missing.Nodup := by
  unfold process_playlist at hp
  repeat' split at hp
  all_goals injection hp with h1 h2
  all_goals rw [← h1]
  all_goals first
    | exact h
    | exact foldl_pySetAdd_nodup _ _ h

/-- The loop preserves the no-duplicates invariant of the missing set. -/
theorem main_loop_missing_nodup (w : World) (meta : List (String × ArtistMeta))
    (now : String) :
    ∀ (cfgs : List (String × PlaylistCfg)) (st : RunState), st.missing.Nodup →
    ((main_loop w meta now st cfgs).1).missing.Nodup := by
  intro cfgs
  induction cfgs with
  | nil => intro st h; exact h
  | cons p rest ih =>
    intro st h
    obtain ⟨s, c⟩ := p
    rw [main_loop]
    cases hp : process_playlist w meta now st s c with
    | mk st1 oe =>
      have h1 := process_playlist_missing_nodup w meta now st s c st1 oe hp h
      cases oe with
      | some e => exact h1
      | none => exact ih st1 h1

/-- C8: a track whose non-empty primary artist has no exact match in the
artist metadata produces a record with artistCountry Unknown, regionGroup
Unknown and diaspora false, and adds that artist name to the missing set
(a set insertion, so recurrences across tracks and playlists collapse); and
in every successful run the published missingArtists list is sorted and
holds every name it mentions exactly once (count 1 for members, 0 for
non-members) - it is the deduplicated, sorted union over all playlists. -/
theorem c8_missing_artist_fallback (item : TrackItem) (t : Track) (a : ArtistObj)
    (arest : List ArtistObj) (nm tid : String) (f : Option FeatureEntry)
    (meta meta2 : List (String × ArtistMeta)) (acc : List String)
    (cfg : List (String × PlaylistCfg)) (w : World) (now : String)
    (out : RunResult) (s : String)
    (hti : item.track = some (some t))
    (hloc : t.is_local.getD false = false)
    (htid : t.id = some tid)
    (htid2 : tid ≠ "")
    (hart : t.artists = a :: arest)
    (hnm : a.name = some nm)
    (hne : nm ≠ "")
    (hmiss : dictGet meta nm = none)
    (hok : (main_run cfg meta2 w now).2 = .ok out) :
    (build_track_payload item f meta acc).2 = pySetAdd acc nm
    ∧ ((build_track_payload item f meta acc).1.map TrackRec.artistCountry) = some "Unknown"
    ∧ ((build_track_payload item f meta acc).1.map TrackRec.regionGroup) = some "Unknown"
    ∧ ((build_track_payload item f meta acc).1.map TrackRec.diaspora) = some false
    ∧ List.Sorted pyStrLe out.dataset.runMetadata.missingArtists
    ∧ out.dataset.runMetadata.missingArtists.count s =
        (if s ∈ out.dataset.runMetadata.missingArtists then 1 else 0) := by
  have hsorted_count :
      List.Sorted pyStrLe out.dataset.runMetadata.missingArtists
      ∧ out.dataset.runMetadata.missingArtists.count s =
          (if s ∈ out.dataset.runMetadata.missingArtists then 1 else 0) := by
    unfold main_run at hok
    cases htk : w.token with
    | error ff => simp only [htk] at hok; cases hok
    | ok tk2 =>
      simp only [htk] at hok
      cases hml : main_loop w meta2 now ⟨[.tokenExchange], [], [], [], []⟩ cfg with
      | mk stf oe =>
        simp only [hml] at hok
        cases oe with
        | some e => simp at hok
        | none =>
          simp only [Except.ok.injEq] at hok
          have hnd : stf.missing.Nodup := by
            have hh := main_loop_missing_nodup w meta2 now cfg
              ⟨[.tokenExchange], [], [], [], []⟩ (by simp)
            rw [hml] at hh
            exact hh
          have hnd2 : (sortStr stf.missing).Nodup :=
            (List.perm_insertionSort pyStrLe stf.missing).nodup_iff.mpr hnd
          rw [← hok]
          constructor
          · exact List.sorted_insertionSort pyStrLe stf.missing
          · by_cases hs : s ∈ sortStr stf.missing
            · rw [if_pos hs]
              exact List.count_eq_one_of_mem hnd2 hs
            · rw [if_neg hs]
              exact List.count_eq_zero_of_not_mem hs
  refine ⟨?_, ?_, ?_, ?_, hsorted_count.1, hsorted_count.2⟩
  all_goals simp [build_track_payload, hti, hloc, htid, htid2, hart, hnm, hne, hmiss]

/-- Two playlists that both carry a track by the unknown artist Zed. -/
def c8_track1 : Track :=
  ⟨some "T1", none, some "Song One", [⟨some "Zed"⟩], some ⟨some "2021-01-01"⟩⟩

def c8_track2 : Track :=
  ⟨some "T2", none, some "Song Two", [⟨some "Zed"⟩], none⟩

def c8_snap1 : Snapshot :=
  ⟨some (some "List One"), none, none, none,
    some (some ⟨none, [⟨some (some c8_track1)⟩]⟩)⟩

def c8_snap2 : Snapshot :=
  ⟨some (some "List Two"), none, none, none,
    some (some ⟨none, [⟨some (some c8_track2)⟩]⟩)⟩

def c8_world : World :=
  { token := .ok "tok",
    snapshot := fun pid _ => if pid = "A1" then .ok c8_snap1 else .ok c8_snap2,
    page := fun _ => .error ⟨500, "", ""⟩,
    featureBatch := fun _ => .ok [],
    fuel := 1 }

def c8_cfg : List (String × PlaylistCfg) :=
  [("pl1", ⟨some "A1", none, none, none⟩), ("pl2", ⟨some "A2", none, none, none⟩)]

def c8_junk : RunResult := ⟨⟨[], ⟨"", "", 0, [], []⟩⟩, []⟩

/-- The output of the concrete two-playlist run. -/
def c8_out : RunResult :=
  ((main_run c8_cfg DEFAULT_ARTIST_METADATA c8_world "T").2.toOption).getD c8_junk

theorem c8_missing_artist_fallback_witness :
    ((build_track_payload ⟨some (some c8_track1)⟩ none DEFAULT_ARTIST_METADATA []).2 =
        pySetAdd [] "Zed"
      ∧ ((build_track_payload ⟨some (some c8_track1)⟩ none
            DEFAULT_ARTIST_METADATA []).1.map TrackRec.artistCountry) = some "Unknown"
      ∧ ((build_track_payload ⟨some (some c8_track1)⟩ none
            DEFAULT_ARTIST_METADATA []).1.map TrackRec.regionGroup) = some "Unknown"
      ∧ ((build_track_payload ⟨some (some c8_track1)⟩ none
            DEFAULT_ARTIST_METADATA []).1.map TrackRec.diaspora) = some false
      ∧ List.Sorted pyStrLe c8_out.dataset.runMetadata.missingArtists
      ∧ c8_out.dataset.runMetadata.missingArtists.count "Zed" =
          (if "Zed" ∈ c8_out.dataset.runMetadata.missingArtists then 1 else 0))
    ∧ c8_out.dataset.runMetadata.missingArtists = ["Zed"]
    ∧ c8_out.dataset.runMetadata.missingArtists.count "Zed" = 1 :=
  ⟨c8_missing_artist_fallback ⟨some (some c8_track1)⟩ c8_track1 ⟨some "Zed"⟩ []
      "Zed" "T1" none DEFAULT_ARTIST_METADATA DEFAULT_ARTIST_METADATA []
      c8_cfg c8_world "T" c8_out "Zed"
      rfl rfl rfl (by decide) rfl rfl (by decide) rfl rfl,
    rfl, rfl⟩

end FetchSpotify
